import Mathlib

/-!
Shallow embedding of `src/server.js` (an Express + Mongoose CRUD server for a
restaurants collection), together with proofs about the claims on its
request handlers and lifecycle functions.

JSON values carried in request bodies and stored documents are modelled by
the inductive `Value`; a JSON object (request body, stored document, `$set`
payload) is an association list of string keys to values.  The document
store (Mongoose) is an external collaborator: each handler is embedded as a
function of the request data and of the outcome the store produces for the
single query the handler issues (`rejected` for a rejected promise,
`resolved v` for a fulfilled one; Mongoose `findById`-style queries fulfil
with `null`, i.e. `none`, when no document matches).  A handler's
observable behaviour is the ordered list of response writes it attempts,
the `console.error` log lines it emits, and the store calls it issues.
-/

namespace RestaurantApp

/-- A JSON/JS value as carried by `body-parser` and Mongoose documents. -/
inductive Value where
  | null
  | bool (b : Bool)
  | num (n : Int)
  | str (s : String)
  | arr (elems : List Value)
  | obj (fields : List (String × Value))

/-- A JSON object: request body, stored document, or update payload. -/
abbrev Body := List (String × Value)

/-- Property lookup `o[k]`: `none` models JS `undefined` (key absent). -/
def getField (b : Body) (k : String) : Option Value :=
  (b.find? (fun p => p.1 == k)).map (fun p => p.2)

/-- The JS `k in o` test: key presence. -/
def hasField (b : Body) (k : String) : Bool :=
  (getField b k).isSome

/-- JS truthiness of a defined value. -/
def truthy : Value → Bool
  | .null => false
  | .bool b => b
  | .num n => n != 0
  | .str s => s != ""
  | .arr _ => true
  | .obj _ => true

/-- JS strict equality `s === v` between a string and an arbitrary value:
true only when `v` is the same string. -/
def strictEqStr (s : String) : Value → Bool
  | .str t => s == t
  | _ => false

mutual
/-- JS string coercion `String(v)` / template interpolation of a value
(object formatting abbreviated to the usual `[object Object]`). -/
def jsToString : Value → String
  | .null => "null"
  | .bool b => cond b "true" "false"
  | .num n => toString n
  | .str s => s
  | .arr es => jsToStringList es
  | .obj _ => "[object Object]"

/-- Array elements joined with commas, as `Array.prototype.toString` does. -/
def jsToStringList : List Value → String
  | [] => ""
  | [v] => jsToString v
  | v :: rest => jsToString v ++ "," ++ jsToStringList rest
end

/-! ### Stored documents and MongoDB `$set`

A stored restaurant document is a JSON object (its `_id` is one of its
fields).  `findByIdAndUpdate(id, {$set: u})` applies each key/value pair of
`u` to the matched document: an existing key is overwritten in place, a new
key is appended. -/

/-- A stored document. -/
abbrev Doc := Body

/-- Set one key of a document: overwrite the first occurrence, else append. -/
def setKey : Doc → String → Value → Doc
  | [], k, v => [(k, v)]
  | (k', v') :: rest, k, v =>
      if k' == k then (k, v) :: rest else (k', v') :: setKey rest k v

/-- Apply a MongoDB `$set` payload to a document, key by key in order. -/
def applySet (d : Doc) (u : List (String × Value)) : Doc :=
  u.foldl (fun acc p => setKey acc p.1 p.2) d

/-! ### Observable handler behaviour -/

/-- One store call issued by a handler, with the arguments it passes.
`create` records each field of the object literal passed to
`Restaurant.create`; a `none` value models a key whose value is the JS
`undefined` (the key was absent from the request body). -/
inductive StoreCall where
  | find (limit : Nat)
  | findById (id : String)
  | create (fields : List (String × Option Value))
  | findByIdAndUpdate (id : String) (setPayload : List (String × Value))
  | findByIdAndRemove (id : String)

/-- Outcome of the single store query a handler awaits: the promise is
rejected, or fulfilled with a value (Mongoose `findById`-style queries
fulfil with `null` = `none` when no document matches). -/
inductive StoreResult (α : Type) where
  | rejected (err : String)
  | resolved (val : α)

/-- Body of a response write: `res.end()`, `res.send(text)`, `res.json(v)`. -/
inductive RespBody where
  | empty
  | text (s : String)
  | json (v : Value)

/-- One attempted response write: status code and body. -/
structure Response where
  status : Nat
  body : RespBody

/-- Everything a handler invocation observably does: the response writes it
attempts in order (a second write on an already-sent response is still an
attempted write), its `console.error` lines, and its store calls. -/
structure HandlerOut where
  responses : List Response
  logs : List String
  storeCalls : List StoreCall

/-- The uniform catch-block response:
`res.status(500).json({message: 'Internal server error'})`. -/
def genericError : Response :=
  ⟨500, .json (.obj [("message", .str "Internal server error")])⟩

/-- Modelled from the spec: `models.js` (the Representation Mapper) is not
under `src/`; per spec §4.1 `apiRepr` projects a stored restaurant onto
exactly the fields id, name, borough, cuisine, address, grades. -/
def apiRepr (d : Doc) : Value :=
  .obj [("id", (getField d "_id").getD .null),
        ("name", (getField d "name").getD .null),
        ("borough", (getField d "borough").getD .null),
        ("cuisine", (getField d "cuisine").getD .null),
        ("address", (getField d "address").getD .null),
        ("grades", (getField d "grades").getD .null)]

/-! ### Route handlers (server.js lines 25-135) -/

/-- `GET /restaurants` (server.js 25-47): `Restaurant.find().limit(10)`,
then a JSON object with the `apiRepr` of each returned document, catch
logs the error and sends the generic 500. -/
def getRestaurantsHandler (outcome : StoreResult (List Doc)) : HandlerOut :=
  match outcome with
  | .rejected err => ⟨[genericError], [err], [.find 10]⟩
  | .resolved docs =>
      ⟨[⟨200, .json (.obj [("restaurants", .arr (docs.map apiRepr))])⟩],
       [], [.find 10]⟩

/-- `GET /restaurants/:id` (server.js 50-62): `Restaurant.findById`.  When
the query fulfils with `null` (id not in storage), the success callback
evaluates `restaurant.apiRepr()` on `null`, which throws a `TypeError`;
the promise chain routes that into the same `.catch`, which logs it and
sends the generic 500. -/
def getRestaurantByIdHandler (pathId : String) (outcome : StoreResult (Option Doc)) :
    HandlerOut :=
  match outcome with
  | .rejected err => ⟨[genericError], [err], [.findById pathId]⟩
  | .resolved (some d) => ⟨[⟨200, .json (apiRepr d)⟩], [], [.findById pathId]⟩
  | .resolved none =>
      ⟨[genericError],
       ["TypeError: Cannot read property 'apiRepr' of null"],
       [.findById pathId]⟩

/-- The ordered required-field list of the POST handler (server.js 66). -/
def requiredFields : List String := ["name", "borough", "cuisine"]

/-- `POST /restaurants` (server.js 64-90): scan `requiredFields` in order;
on the first field not in the body, log and `return` a 400 with the plain
text message, issuing no store call.  Otherwise call `Restaurant.create`
with the literal `{name, borough, cuisine, grades, address}` built from
the body (absent keys passed as JS `undefined` = `none`). -/
def postRestaurantsHandler (body : Body) (outcome : StoreResult Doc) : HandlerOut :=
  match requiredFields.find? (fun f => !(hasField body f)) with
  | some field =>
      let message := "Missing `" ++ field ++ "` in request body"
      ⟨[⟨400, .text message⟩], [message], []⟩
  | none =>
      let callFields : List (String × Option Value) :=
        [("name", getField body "name"),
         ("borough", getField body "borough"),
         ("cuisine", getField body "cuisine"),
         ("grades", getField body "grades"),
         ("address", getField body "address")]
      match outcome with
      | .rejected err => ⟨[genericError], [err], [.create callFields]⟩
      | .resolved d => ⟨[⟨201, .json (apiRepr d)⟩], [], [.create callFields]⟩

/-- The id-match guard of the PUT handler (server.js 94):
`req.params.id && req.body.id && req.params.id === req.body.id`.
`req.body.id` is JS `undefined` (falsy) when the key is absent. -/
def idCheckPasses (pathId : String) (body : Body) : Bool :=
  truthy (.str pathId) &&
    (match getField body "id" with
     | none => false
     | some v => truthy v && strictEqStr pathId v)

/-- Interpolation of `req.body.id` into the mismatch message template
(`undefined` when the key is absent). -/
def bodyIdDisplay (body : Body) : String :=
  match getField body "id" with
  | none => "undefined"
  | some v => jsToString v

/-- The mismatch message of server.js 95. -/
def mismatchMessage (pathId : String) (body : Body) : String :=
  "Request path id (" ++ pathId ++ ") and request body id (" ++
    bodyIdDisplay body ++ ") must match"

/-- The updateable-field whitelist of the PUT handler (server.js 106). -/
def updateableFields : List String := ["name", "borough", "cuisine", "address"]

/-- The `toUpdate` object of server.js 105-112: for each whitelisted field
in order, if the key is in the body, include it with the body's value. -/
def buildToUpdate (body : Body) : List (String × Value) :=
  updateableFields.filterMap (fun f => (getField body f).map (fun v => (f, v)))

/-- `PUT /restaurants/:id` (server.js 92-125).  When the id-match guard
fails, a 400 is written and the message logged, but there is no `return`:
the handler falls through and issues `findByIdAndUpdate` regardless, then
attempts a second response write (204 on fulfilment — including fulfilment
with `null` for an id not in storage — or the generic 500 on rejection;
its catch block does not log). -/
def putRestaurantHandler (pathId : String) (body : Body)
    (outcome : StoreResult (Option Doc)) : HandlerOut :=
  let checkFailed := !(idCheckPasses pathId body)
  let r400 : List Response :=
    if checkFailed then
      [⟨400, .json (.obj [("message", .str (mismatchMessage pathId body))])⟩]
    else []
  let l400 : List String :=
    if checkFailed then [mismatchMessage pathId body] else []
  let call := StoreCall.findByIdAndUpdate pathId (buildToUpdate body)
  match outcome with
  | .rejected _ => ⟨r400 ++ [genericError], l400, [call]⟩
  | .resolved _ => ⟨r400 ++ [⟨204, .empty⟩], l400, [call]⟩

/-- `DELETE /restaurants/:id` (server.js 127-135): `findByIdAndRemove`,
204 on fulfilment (also with `null` for an id not in storage), generic 500
on rejection; its catch block does not log. -/
def deleteRestaurantHandler (pathId : String) (outcome : StoreResult (Option Doc)) :
    HandlerOut :=
  match outcome with
  | .rejected _ => ⟨[genericError], [], [.findByIdAndRemove pathId]⟩
  | .resolved _ => ⟨[⟨204, .empty⟩], [], [.findByIdAndRemove pathId]⟩

/-! ### Server lifecycle (server.js 150-185)

`runServer` and `closeServer` are callback/promise compositions; they are
embedded as the ordered trace of lifecycle events each produces for every
combination of outcomes of the external operations they invoke
(`mongoose.connect`, `app.listen`, `mongoose.disconnect`, `server.close`). -/

/-- Observable lifecycle events, in the order they occur. -/
inductive LcEvent where
  | connectCalled        -- mongoose.connect invoked
  | connectFailed        -- connect callback ran with an error
  | connectSucceeded     -- connect callback ran without error
  | listenCalled         -- app.listen invoked (socket bind attempt)
  | listening            -- listen callback fired: socket accepting connections
  | storeDisconnectCalled  -- mongoose.disconnect() invoked
  | startResolved        -- runServer's promise resolved
  | startRejected        -- runServer's promise rejected
  | disconnectCompleted  -- mongoose.disconnect()'s promise fulfilled
  | serverCloseCalled    -- server.close invoked
  | socketClosed         -- close callback ran without error
  | stopResolved         -- closeServer's promise resolved
  | stopRejected         -- closeServer's promise rejected
deriving DecidableEq

/-- Outcome of `mongoose.connect`. -/
inductive ConnectOutcome where
  | success
  | failure
deriving DecidableEq

/-- Outcome of `app.listen`: the listen callback fires, or the server
emits `error` (bind failure). -/
inductive ListenOutcome where
  | listening
  | bindError
deriving DecidableEq

/-- Outcome of `mongoose.disconnect()` inside `closeServer`. -/
inductive DisconnectOutcome where
  | success
  | failure
deriving DecidableEq

/-- Outcome of `server.close` (its callback's `err` argument). -/
inductive CloseOutcome where
  | closed
  | closeError
deriving DecidableEq

/-- `runServer` (server.js 150-169): connect; on connect error reject at
once (no listen).  On success call `app.listen`; resolve in the listen
callback, or on the server's `error` event call `mongoose.disconnect()`
and reject. -/
def runServerTrace : ConnectOutcome → ListenOutcome → List LcEvent
  | .failure, _ =>
      [.connectCalled, .connectFailed, .startRejected]
  | .success, .listening =>
      [.connectCalled, .connectSucceeded, .listenCalled, .listening, .startResolved]
  | .success, .bindError =>
      [.connectCalled, .connectSucceeded, .listenCalled, .storeDisconnectCalled,
       .startRejected]

/-- `closeServer` (server.js 173-185): `mongoose.disconnect()` first; only
after its promise fulfils does the `.then` run `server.close`; the
returned promise settles with the close callback. -/
def closeServerTrace : DisconnectOutcome → CloseOutcome → List LcEvent
  | .failure, _ =>
      [.storeDisconnectCalled, .stopRejected]
  | .success, .closeError =>
      [.storeDisconnectCalled, .disconnectCompleted, .serverCloseCalled,
       .stopRejected]
  | .success, .closed =>
      [.storeDisconnectCalled, .disconnectCompleted, .serverCloseCalled,
       .socketClosed, .stopResolved]

/-! ### Lemmas about documents and update payloads -/

theorem getField_cons (a : String) (b : Value) (d : Doc) (k : String) :
    getField ((a, b) :: d) k = if a == k then some b else getField d k := by
  by_cases h : (a == k) = true
  · simp [getField, List.find?_cons_of_pos, h]
  · simp only [Bool.not_eq_true] at h
    simp [getField, List.find?_cons_of_neg, h]

theorem getField_setKey_ne (d : Doc) (k k' : String) (v : Value) (h : ¬ k' = k) :
    getField (setKey d k v) k' = getField d k' := by
  induction d with
  | nil =>
      have hk : (k == k') = false := by
        simp only [beq_eq_false_iff_ne, ne_eq]
        exact fun e => h e.symm
      simp [setKey, getField, hk]
  | cons p rest ih =>
      obtain ⟨a, b⟩ := p
      by_cases hak : (a == k) = true
      · have ha : a = k := by simpa using hak
        have hk : (k == k') = false := by
          simp only [beq_eq_false_iff_ne, ne_eq]
          exact fun e => h e.symm
        subst ha
        simp [setKey, getField_cons, hk]
      · simp only [Bool.not_eq_true] at hak
        rw [setKey, if_neg (by simp [hak]), getField_cons, getField_cons, ih]

theorem getField_applySet_not_mem (u : List (String × Value)) (d : Doc) (k : String)
    (h : k ∉ u.map Prod.fst) : getField (applySet d u) k = getField d k := by
  induction u generalizing d with
  | nil => rfl
  | cons p rest ih =>
      obtain ⟨a, b⟩ := p
      simp only [List.map_cons, List.mem_cons, not_or] at h
      have : applySet d ((a, b) :: rest) = applySet (setKey d a b) rest := by
        simp [applySet]
      rw [this, ih _ h.2, getField_setKey_ne _ _ _ _ h.1]

theorem filterMap_getField_keys (fields : List String) (body : Body) :
    (fields.filterMap (fun f => (getField body f).map (fun v => (f, v)))).map Prod.fst
      = fields.filter (fun f => hasField body f) := by
  induction fields with
  | nil => rfl
  | cons f rest ih =>
      cases hgf : getField body f with
      | none => simp [List.filterMap_cons, hgf, List.filter_cons, hasField, ih]
      | some v => simp [List.filterMap_cons, hgf, List.filter_cons, hasField, ih]

theorem buildToUpdate_keys (body : Body) :
    (buildToUpdate body).map Prod.fst
      = updateableFields.filter (fun f => hasField body f) :=
  filterMap_getField_keys updateableFields body

theorem buildToUpdate_keys_subset (body : Body) (k : String)
    (h : k ∈ (buildToUpdate body).map Prod.fst) : k ∈ updateableFields := by
  rw [buildToUpdate_keys] at h
  exact List.mem_of_mem_filter h

/-! ### Concrete requests and documents used to instantiate the theorems -/

/-- A partial PUT body: matching id, new name and borough, no cuisine. -/
def partialPutBody : Body :=
  [("id", .str ("abc")), ("name", .str ("New Name")), ("borough", .str ("Queens"))]

/-- A stored document with id, name, borough, cuisine set. -/
def storedDoc : Doc :=
  [("_id", .str ("abc")), ("name", .str ("Old Name")),
   ("borough", .str ("Brooklyn")), ("cuisine", .str ("Diner"))]

/-- A PUT body trying to overwrite the identifier. -/
def idOverwriteBody : Body :=
  [("id", .str ("abc")), ("_id", .str ("zzz")), ("name", .str ("New Name"))]

/-- A POST body with all three required fields. -/
def fullPostBody : Body :=
  [("name", .str ("Test")), ("borough", .str ("Queens")), ("cuisine", .str ("Diner"))]

/-- A POST body missing `borough` (and `cuisine`). -/
def missingBoroughBody : Body :=
  [("name", .str ("Test")), ("cuisine", .str ("Diner"))]

/-! ### Claim theorems -/

/-- C1: every PUT request issues exactly one store call, an update-by-id
whose `$set` payload is `buildToUpdate body`; the payload's key set is
exactly the intersection of the whitelist {name, borough, cuisine,
address} with the keys present in the body (in whitelist order); and
applying that payload to any stored document leaves every field outside
the payload's key set unchanged — merge-patch, not replace. -/
theorem put_update_is_merge_patch (pathId : String) (body : Body)
    (outcome : StoreResult (Option Doc)) (d : Doc) :
    (putRestaurantHandler pathId body outcome).storeCalls
        = [.findByIdAndUpdate pathId (buildToUpdate body)]
    ∧ (buildToUpdate body).map Prod.fst
        = updateableFields.filter (fun f => hasField body f)
    ∧ (∀ k, k ∉ (buildToUpdate body).map Prod.fst →
        getField (applySet d (buildToUpdate body)) k = getField d k) := by
  refine ⟨?_, buildToUpdate_keys body,
    fun k hk => getField_applySet_not_mem _ d k hk⟩
  cases outcome <;> rfl

/-- C1 witness: a PUT body sending only name and borough updates exactly
those two fields and leaves the stored cuisine untouched. -/
theorem put_update_is_merge_patch_witness :
    getField (applySet storedDoc (buildToUpdate partialPutBody)) "cuisine"
      = getField storedDoc "cuisine" :=
  (put_update_is_merge_patch "abc" partialPutBody (.resolved none)
    storedDoc).2.2 "cuisine" (by decide)

/-- C2: a POST whose body misses a required field answers 400 with the
plain-text message naming the first missing field in the declared order
name, borough, cuisine, logs that message, and issues no store call. -/
theorem post_missing_field_400 (body : Body) (outcome : StoreResult Doc)
    (field : String)
    (h : requiredFields.find? (fun f => !(hasField body f)) = some field) :
    postRestaurantsHandler body outcome =
      ⟨[⟨400, .text ("Missing `" ++ field ++ "` in request body")⟩],
       ["Missing `" ++ field ++ "` in request body"], []⟩ := by
  unfold postRestaurantsHandler
  rw [h]

/-- C2 witness: a body with name and cuisine but no borough is rejected
with the message naming `borough`, the first missing field in order. -/
theorem post_missing_field_400_witness :
    postRestaurantsHandler missingBoroughBody (.resolved []) =
      ⟨[⟨400, .text ("Missing `borough` in request body")⟩],
       ["Missing `borough` in request body"], []⟩ :=
  post_missing_field_400 missingBoroughBody (.resolved []) "borough" (by decide)

/-- C3: whenever the id-match guard fails (path id or body id missing,
falsy, or unequal), the PUT handler's first response write is a 400 whose
body carries the descriptive mismatch message naming both ids. -/
theorem put_id_mismatch_400 (pathId : String) (body : Body)
    (outcome : StoreResult (Option Doc))
    (h : idCheckPasses pathId body = false) :
    (putRestaurantHandler pathId body outcome).responses.head? =
      some ⟨400, .json (.obj [("message", .str (mismatchMessage pathId body))])⟩ := by
  cases outcome <;> simp [putRestaurantHandler, h]

/-- C3 witness: a PUT to path id `abc` with no id in the body answers 400
with the descriptive message. -/
theorem put_id_mismatch_400_witness :
    (putRestaurantHandler "abc" [] (.resolved none)).responses.head? =
      some ⟨400, .json (.obj [("message",
        .str ("Request path id (abc) and request body id (undefined) must match"))])⟩ :=
  put_id_mismatch_400 "abc" [] (.resolved none) (by decide)

/-- C4: a PUT that fails the id-match guard nevertheless issues the
update-by-id store call with the whitelisted body fields, and attempts a
second response write after the 400 (two writes in total). -/
theorem put_id_mismatch_still_updates (pathId : String) (body : Body)
    (outcome : StoreResult (Option Doc))
    (h : idCheckPasses pathId body = false) :
    (putRestaurantHandler pathId body outcome).storeCalls
        = [.findByIdAndUpdate pathId (buildToUpdate body)]
    ∧ (putRestaurantHandler pathId body outcome).responses.length = 2 := by
  cases outcome <;> simp [putRestaurantHandler, h]

/-- C4 witness: a PUT to path id `abc` whose body id is `zzz` (mismatch)
still issues the update-by-id call carrying the body's name field, and
attempts two response writes. -/
theorem put_id_mismatch_still_updates_witness :
    (putRestaurantHandler "abc" [("id", .str ("zzz")), ("name", .str ("N"))]
        (.resolved (some storedDoc))).storeCalls
      = [.findByIdAndUpdate "abc" [("name", .str ("N"))]]
    ∧ (putRestaurantHandler "abc" [("id", .str ("zzz")), ("name", .str ("N"))]
        (.resolved (some storedDoc))).responses.length = 2 :=
  put_id_mismatch_still_updates "abc" [("id", .str ("zzz")), ("name", .str ("N"))]
    (.resolved (some storedDoc)) (by decide)

/-- C5 counterexample: a DELETE whose lookup fulfils with null (the id is
not in storage — a store-layer "not found") answers 204 with an empty
body and logs nothing, contradicting the claim that every store-layer
failure including not-found is mapped to 500 and logged. -/
theorem delete_not_found_is_204 :
    deleteRestaurantHandler "5af50c84c082f1e92f99fa42" (.resolved none) =
      ⟨[⟨204, .empty⟩], [],
       [.findByIdAndRemove "5af50c84c082f1e92f99fa42"]⟩ := rfl

/-- C5 amended: store rejections are mapped to the generic 500 on every
route, with the error logged by the GET and POST handlers but not by the
PUT or DELETE handlers (whose catch blocks do not log); a fulfilment with
null (not-found) yields the generic 500 on GET by id but a plain 204 on
PUT and DELETE. -/
theorem store_error_mapping (err pathId : String) (body : Body) :
    (getRestaurantsHandler (.rejected err)).responses = [genericError]
    ∧ (getRestaurantsHandler (.rejected err)).logs = [err]
    ∧ (getRestaurantByIdHandler pathId (.rejected err)).responses = [genericError]
    ∧ (getRestaurantByIdHandler pathId (.rejected err)).logs = [err]
    ∧ (requiredFields.find? (fun f => !(hasField body f)) = none →
        (postRestaurantsHandler body (.rejected err)).responses = [genericError]
        ∧ (postRestaurantsHandler body (.rejected err)).logs = [err])
    ∧ (putRestaurantHandler pathId body (.rejected err)).responses.getLast?
        = some genericError
    ∧ (putRestaurantHandler pathId body (.rejected err)).logs
        = (putRestaurantHandler pathId body (.resolved none)).logs
    ∧ (deleteRestaurantHandler pathId (.rejected err)).responses = [genericError]
    ∧ (deleteRestaurantHandler pathId (.rejected err)).logs = []
    ∧ (getRestaurantByIdHandler pathId (.resolved none)).responses = [genericError]
    ∧ (putRestaurantHandler pathId body (.resolved none)).responses.getLast?
        = some ⟨204, RespBody.empty⟩
    ∧ (deleteRestaurantHandler pathId (.resolved none)).responses
        = [⟨204, RespBody.empty⟩] := by
  refine ⟨rfl, rfl, rfl, rfl, ?_, ?_, rfl, rfl, rfl, rfl, ?_, rfl⟩
  · intro h
    unfold postRestaurantsHandler
    rw [h]
    exact ⟨rfl, rfl⟩
  · cases hc : idCheckPasses pathId body <;>
      simp [putRestaurantHandler, hc]
  · cases hc : idCheckPasses pathId body <;>
      simp [putRestaurantHandler, hc]

/-- C5 amended witness: with all required fields present, a POST whose
create call is rejected answers the generic 500 and logs the error. -/
theorem store_error_mapping_witness :
    (postRestaurantsHandler fullPostBody (.rejected "boom")).responses
        = [genericError]
    ∧ (postRestaurantsHandler fullPostBody (.rejected "boom")).logs = ["boom"] :=
  (store_error_mapping "boom" "abc" fullPostBody).2.2.2.2.1 (by decide)

/-- C6: a GET by id whose lookup fulfils with null (the id is not in
storage) answers 500 with the generic error body — the success callback
dereferences null and the thrown error lands in the same catch — and a
rejected lookup answers the same 500; neither path produces a 404. -/
theorem get_by_id_missing_is_500 (pathId : String) (err : String) :
    (getRestaurantByIdHandler pathId (.resolved none)).responses = [genericError]
    ∧ (getRestaurantByIdHandler pathId (.rejected err)).responses = [genericError] :=
  ⟨rfl, rfl⟩

/-- C7: the PUT update payload never contains an `id` or `_id` key — the
whitelist excludes the identifier — so applying the update to any stored
document leaves its `_id` field unchanged, while the handler still issues
exactly the whitelisted update call. -/
theorem put_never_updates_id (pathId : String) (body : Body)
    (outcome : StoreResult (Option Doc)) (d : Doc) :
    "id" ∉ (buildToUpdate body).map Prod.fst
    ∧ "_id" ∉ (buildToUpdate body).map Prod.fst
    ∧ getField (applySet d (buildToUpdate body)) "_id" = getField d "_id"
    ∧ (putRestaurantHandler pathId body outcome).storeCalls
        = [.findByIdAndUpdate pathId (buildToUpdate body)] := by
  have hid : "id" ∉ (buildToUpdate body).map Prod.fst := fun h => by
    have := buildToUpdate_keys_subset body _ h
    simp [updateableFields] at this
  have huid : "_id" ∉ (buildToUpdate body).map Prod.fst := fun h => by
    have := buildToUpdate_keys_subset body _ h
    simp [updateableFields] at this
  refine ⟨hid, huid, getField_applySet_not_mem _ d _ huid, ?_⟩
  cases outcome <;> rfl

/-- C7 witness: a PUT body that smuggles an `_id` key does not change the
stored identifier. -/
theorem put_never_updates_id_witness :
    getField (applySet storedDoc (buildToUpdate idOverwriteBody)) "_id"
      = some (.str ("abc")) :=
  ((put_never_updates_id "abc" idOverwriteBody (.resolved none)
    storedDoc).2.2.1).trans rfl

/-- C8: runServer rejects without ever invoking the socket bind when the
store connection fails; on bind failure it calls the store disconnect and
rejects; its promise resolves exactly when the connection succeeded and
the socket came up listening, and the listening event strictly precedes
the resolution. -/
theorem runServer_lifecycle (cO : ConnectOutcome) (lO : ListenOutcome) :
    (cO = .failure → LcEvent.listenCalled ∉ runServerTrace cO lO
        ∧ (runServerTrace cO lO).getLast? = some .startRejected)
    ∧ (cO = .success ∧ lO = .bindError →
        LcEvent.storeDisconnectCalled ∈ runServerTrace cO lO
        ∧ (runServerTrace cO lO).getLast? = some .startRejected)
    ∧ (LcEvent.startResolved ∈ runServerTrace cO lO ↔
        cO = .success ∧ lO = .listening)
    ∧ (LcEvent.startResolved ∈ runServerTrace cO lO →
        (runServerTrace cO lO).indexOf LcEvent.listening
          < (runServerTrace cO lO).indexOf LcEvent.startResolved) := by
  cases cO <;> cases lO <;> decide

/-- C8 witness: when the store connection fails, no socket bind is
attempted and the start promise is rejected. -/
theorem runServer_lifecycle_witness :
    LcEvent.listenCalled ∉ runServerTrace .failure .listening
    ∧ (runServerTrace .failure .listening).getLast? = some .startRejected :=
  (runServer_lifecycle .failure .listening).1 rfl

/-- C9 counterexample: in the successful stop trace the store disconnect
completes strictly before the socket close is even invoked — the
disconnect is neither after nor concurrent with the close, refuting the
claimed ordering. -/
theorem stop_disconnects_store_first :
    LcEvent.disconnectCompleted ∈ closeServerTrace .success .closed
    ∧ LcEvent.serverCloseCalled ∈ closeServerTrace .success .closed
    ∧ (closeServerTrace .success .closed).indexOf LcEvent.disconnectCompleted
        < (closeServerTrace .success .closed).indexOf LcEvent.serverCloseCalled := by
  decide

/-- C9 amended: Stop disconnects the store first; the socket close is
invoked only after the disconnect has completed; and the returned promise
resolves exactly when both the disconnect and the close succeeded, with
the resolution as the final event of the full trace. -/
theorem closeServer_lifecycle (dO : DisconnectOutcome) (cO : CloseOutcome) :
    (closeServerTrace dO cO).head? = some .storeDisconnectCalled
    ∧ (LcEvent.serverCloseCalled ∈ closeServerTrace dO cO →
        (closeServerTrace dO cO).indexOf LcEvent.disconnectCompleted
          < (closeServerTrace dO cO).indexOf LcEvent.serverCloseCalled)
    ∧ (LcEvent.stopResolved ∈ closeServerTrace dO cO ↔
        dO = .success ∧ cO = .closed)
    ∧ ((closeServerTrace dO cO).getLast? = some .stopResolved ↔
        dO = .success ∧ cO = .closed)
    ∧ (dO = .success ∧ cO = .closed →
        closeServerTrace dO cO =
          [.storeDisconnectCalled, .disconnectCompleted, .serverCloseCalled,
           .socketClosed, .stopResolved]) := by
  cases dO <;> cases cO <;> decide

/-- C9 amended witness: the fully successful stop runs disconnect,
disconnect completion, close, socket closed, resolution, in that order. -/
theorem closeServer_lifecycle_witness :
    closeServerTrace .success .closed =
      [.storeDisconnectCalled, .disconnectCompleted, .serverCloseCalled,
       .socketClosed, .stopResolved] :=
  (closeServer_lifecycle .success .closed).2.2.2.2 ⟨rfl, rfl⟩

/-- C10: with matching ids, a PUT whose update fulfils with null (the id
is not in storage) answers 204 with an empty body, and its whole
observable behaviour equals that of a PUT that found a document; DELETE
behaves the same way. -/
theorem put_delete_not_found_204 (pathId : String) (body : Body) (d : Doc)
    (h : idCheckPasses pathId body = true) :
    (putRestaurantHandler pathId body (.resolved none)).responses
        = [⟨204, RespBody.empty⟩]
    ∧ putRestaurantHandler pathId body (.resolved none)
        = putRestaurantHandler pathId body (.resolved (some d))
    ∧ (deleteRestaurantHandler pathId (.resolved none)).responses
        = [⟨204, RespBody.empty⟩]
    ∧ deleteRestaurantHandler pathId (.resolved none)
        = deleteRestaurantHandler pathId (.resolved (some d)) := by
  refine ⟨?_, rfl, rfl, rfl⟩
  simp [putRestaurantHandler, h]

/-- C10 witness: a matching-id PUT and a DELETE on an absent id both
answer 204 empty, exactly as on a present id. -/
theorem put_delete_not_found_204_witness :
    (putRestaurantHandler "abc" partialPutBody (.resolved none)).responses
        = [⟨204, RespBody.empty⟩]
    ∧ putRestaurantHandler "abc" partialPutBody (.resolved none)
        = putRestaurantHandler "abc" partialPutBody (.resolved (some storedDoc))
    ∧ (deleteRestaurantHandler "abc" (.resolved none)).responses
        = [⟨204, RespBody.empty⟩]
    ∧ deleteRestaurantHandler "abc" (.resolved none)
        = deleteRestaurantHandler "abc" (.resolved (some storedDoc)) :=
  put_delete_not_found_204 "abc" partialPutBody storedDoc (by decide)

end RestaurantApp
